import Mathlib

/-!
Verification of the lightning-flash specification claims against a shallow
embedding of the repository sources:
  - flash/video/classification/data.py
  - flash/vision/segmentation/model.py
  - flash/utils/imports.py

Python machine structure is embedded as plain Lean data: optional arguments
become `Option`, Python `raise` becomes `Except`, in-place mutation of a
dataset object becomes explicit state passing, external library constructors
(pytorchvideo, torch) become free record constructors that record their
arguments. Base classes of this repository that are not present under src/
(flash.data.process.Preprocess, flash.data.data_module.DataModule,
flash.data.data_pipeline.DataPipeline, flash.core.registry.FlashRegistry,
flash.core.classification) are modelled from the specification, each marked
`Modelled from the spec:` in its doc comment.
-/

namespace Flash

/-- The training / validation / test / predict splits (running stages). -/
inductive RunningStage where
  | train
  | val
  | test
  | predict
deriving DecidableEq, Repr

/-- A transform callable on samples of type `α` (a Python `Callable`). -/
abbrev Transform (α : Type) := α → α

/-- A `Dict[str, Callable]` of named transform callables, as accepted by
`VideoClassificationPreprocess.__init__` for each split. -/
abbrev TransformDict (α : Type) := List (String × Transform α)

/-- An external pytorchvideo clip-sampler argument: the Python parameter
`clip_sampler: Union[str, ClipSampler]`, which may also be `None`.
An already-constructed `ClipSampler` object is identified abstractly. -/
inductive ClipSamplerArg where
  | pyNone
  | str (s : String)
  | samplerObj (id : Nat)
deriving DecidableEq, Repr

/-- Python truthiness test `not clip_sampler`: `None` and the empty string
are falsy; a sampler object is truthy. -/
def ClipSamplerArg.falsy : ClipSamplerArg → Bool
  | ClipSamplerArg.pyNone => true
  | ClipSamplerArg.str s => s.isEmpty
  | ClipSamplerArg.samplerObj _ => false

/-- An external `pytorchvideo.data.clip_sampling.ClipSampler`, modelled as a
free record of the `make_clip_sampler` call that produced it. -/
structure ClipSampler where
  arg : ClipSamplerArg
  duration : ℚ
  kwargs : List (String × String)
deriving DecidableEq, Repr

/-- External `pytorchvideo.data.clip_sampling.make_clip_sampler`, modelled as
a free constructor recording its arguments. -/
def make_clip_sampler (arg : ClipSamplerArg) (duration : ℚ)
    (kwargs : List (String × String)) : ClipSampler :=
  { arg := arg, duration := duration, kwargs := kwargs }

/-- A `Type[Sampler]` video-sampler class (torch `RandomSampler` by default). -/
inductive VideoSampler where
  | randomSampler
  | custom (name : String)
deriving DecidableEq, Repr

/-- The filesystem environment seen by pytorchvideo: for a folder path, the
labeled videos found inside it, as pairs of video path and integer label
(the `label` entry of each `_labeled_videos` info dict). -/
structure VideoEnv where
  videosIn : String → List (String × Nat)

/-- An external `pytorchvideo.data.encoded_video_dataset.EncodedVideoDataset`,
modelled as a free record of the constructor call, together with its
`_labeled_videos` list as populated from the folder. -/
structure EncodedVideoDataset where
  data_path : String
  clip_sampler : ClipSampler
  video_sampler : VideoSampler
  decode_audio : Bool
  decoder : String
  labeled_videos : List (String × Nat)
deriving DecidableEq, Repr

/-- External `pytorchvideo.data.encoded_video_dataset.labeled_encoded_video_dataset`,
modelled as a free constructor recording its arguments and reading the folder
contents from the environment. -/
def labeled_encoded_video_dataset (env : VideoEnv) (data : String)
    (clip_sampler : ClipSampler) (video_sampler : VideoSampler)
    (decode_audio : Bool) (decoder : String) : EncodedVideoDataset :=
  { data_path := data
    clip_sampler := clip_sampler
    video_sampler := video_sampler
    decode_audio := decode_audio
    decoder := decoder
    labeled_videos := env.videosIn data }

/-- The mutable state of the `AutoDataset` / `IterableAutoDataset` adapter
passed to `load_data` as its `dataset` argument; `load_data` may set its
`num_classes` attribute. -/
structure AutoDatasetState where
  num_classes : Option Nat
deriving DecidableEq, Repr

/-- `VideoClassificationPreprocess` (src/flash/video/classification/data.py,
lines 46-91). Its `__init__` stores the clip sampler, video sampler,
decode_audio flag, decoder, and forwards the four per-split transform
dictionaries to the `Preprocess` base. The base class
(flash.data.process.Preprocess) is not under src/; its per-split transform
storage and active running stage are Modelled from the spec: a "per-task
object holding named transform callables keyed by split
(train/val/test/predict)" with "a current_transform selected by active
split". The active stage is attached later by the pipeline driver, hence
`Option RunningStage`, starting as `none`. -/
structure VideoClassificationPreprocess (α : Type) where
  clip_sampler : ClipSampler
  video_sampler : VideoSampler
  decode_audio : Bool
  decoder : String
  train_transform : Option (TransformDict α)
  val_transform : Option (TransformDict α)
  test_transform : Option (TransformDict α)
  predict_transform : Option (TransformDict α)
  running_stage : Option RunningStage

/-- `VideoClassificationPreprocess.__init__` (data.py lines 48-64): stores
the four configuration fields on `self` and hands exactly one optional
transform dictionary per split to `super().__init__`. No running stage is
active yet at construction time. -/
def VideoClassificationPreprocess.init (α : Type) (clip_sampler : ClipSampler)
    (video_sampler : VideoSampler) (decode_audio : Bool) (decoder : String)
    (train_transform : Option (TransformDict α))
    (val_transform : Option (TransformDict α))
    (test_transform : Option (TransformDict α))
    (predict_transform : Option (TransformDict α)) :
    VideoClassificationPreprocess α :=
  { clip_sampler := clip_sampler
    video_sampler := video_sampler
    decode_audio := decode_audio
    decoder := decoder
    train_transform := train_transform
    val_transform := val_transform
    test_transform := test_transform
    predict_transform := predict_transform
    running_stage := Option.none }

/-- The pipeline driver attaching an active running stage to a preprocess
object before dispatching hooks. Modelled from the spec: transforms are
"applied consistently across training/validation/test/predict splits" with
"a current_transform selected by active split". -/
def VideoClassificationPreprocess.setStage (p : VideoClassificationPreprocess α)
    (s : RunningStage) : VideoClassificationPreprocess α :=
  { p with running_stage := some s }

/-- The transform dictionary associated with the active split. Modelled from
the spec: the `Preprocess` base "exposes a current_transform selected by
active split"; with no active stage there is no selected set. -/
def VideoClassificationPreprocess.currentTransformSet
    (p : VideoClassificationPreprocess α) : Option (TransformDict α) :=
  match p.running_stage with
  | some RunningStage.train => p.train_transform
  | some RunningStage.val => p.val_transform
  | some RunningStage.test => p.test_transform
  | some RunningStage.predict => p.predict_transform
  | Option.none => Option.none

/-- `self.current_transform` as seen by a hook. Modelled from the spec: the
callable is selected from the active split's named-transform dictionary; the
executing hook's name (set by the pipeline driver before each hook call)
picks the callable out of the selected dictionary, defaulting to the
identity when the split has no dictionary or the name is absent. -/
def VideoClassificationPreprocess.current_transform
    (p : VideoClassificationPreprocess α) (fn : String) : Transform α :=
  match p.currentTransformSet with
  | Option.none => id
  | some d =>
    match d.lookup fn with
    | Option.none => id
    | some t => t

/-- Python `self.training` property of the `Preprocess` base. Modelled from
the spec: true exactly when the active split is the training split. -/
def VideoClassificationPreprocess.training
    (p : VideoClassificationPreprocess α) : Bool :=
  match p.running_stage with
  | some RunningStage.train => true
  | _ => false

/-- `VideoClassificationPreprocess.load_data` (data.py lines 66-76): builds
an `EncodedVideoDataset` from the folder via `labeled_encoded_video_dataset`
with the stored clip sampler, video sampler, decode_audio flag and decoder;
in training mode it additionally sets `dataset.num_classes` to the number of
distinct labels among the loaded videos (`len(np.unique(...))`); the new
adapter state is returned alongside the dataset in place of the Python
in-place mutation. -/
def VideoClassificationPreprocess.load_data
    (p : VideoClassificationPreprocess α) (env : VideoEnv) (data : String)
    (dataset : AutoDatasetState) : EncodedVideoDataset × AutoDatasetState :=
  let ds := labeled_encoded_video_dataset env data p.clip_sampler
    p.video_sampler p.decode_audio p.decoder
  if p.training then
    (ds, { dataset with
            num_classes := some ((ds.labeled_videos.map Prod.snd).dedup.length) })
  else
    (ds, dataset)

/-- `VideoClassificationPreprocess.pre_tensor_transform` (data.py lines
78-79): returns `self.current_transform(sample)`. -/
def VideoClassificationPreprocess.pre_tensor_transform
    (p : VideoClassificationPreprocess α) (sample : α) : α :=
  p.current_transform "pre_tensor_transform" sample

/-- `VideoClassificationPreprocess.to_tensor_transform` (data.py lines
81-82): returns `self.current_transform(sample)`. -/
def VideoClassificationPreprocess.to_tensor_transform
    (p : VideoClassificationPreprocess α) (sample : α) : α :=
  p.current_transform "to_tensor_transform" sample

/-- `VideoClassificationPreprocess.post_tensor_transform` (data.py lines
84-85): returns `self.current_transform(sample)`. -/
def VideoClassificationPreprocess.post_tensor_transform
    (p : VideoClassificationPreprocess α) (sample : α) : α :=
  p.current_transform "post_tensor_transform" sample

/-- `VideoClassificationPreprocess.per_batch_transform` (data.py lines
87-88): returns `self.current_transform(sample)`. -/
def VideoClassificationPreprocess.per_batch_transform
    (p : VideoClassificationPreprocess α) (sample : α) : α :=
  p.current_transform "per_batch_transform" sample

/-- `VideoClassificationPreprocess.per_batch_transform_on_device` (data.py
lines 90-91): returns `self.current_transform(sample)`. -/
def VideoClassificationPreprocess.per_batch_transform_on_device
    (p : VideoClassificationPreprocess α) (sample : α) : α :=
  p.current_transform "per_batch_transform_on_device" sample

/-- The staged transform hooks of the preprocessing contract, in the order
named by the spec. -/
inductive Hook where
  | load_data
  | pre_tensor_transform
  | to_tensor_transform
  | post_tensor_transform
  | per_batch_transform
  | per_batch_transform_on_device
deriving DecidableEq, Repr

/-- Position of a hook in the fixed contract order (load, pre-tensor,
to-tensor, post-tensor, per-batch, per-batch-on-device). -/
def Hook.stageIndex : Hook → Nat
  | Hook.load_data => 0
  | Hook.pre_tensor_transform => 1
  | Hook.to_tensor_transform => 2
  | Hook.post_tensor_transform => 3
  | Hook.per_batch_transform => 4
  | Hook.per_batch_transform_on_device => 5

/-- The fixed order in which the pipeline driver runs the staged hooks on a
sample. Modelled from the spec: the `DataPipeline` driver
(flash.data.data_pipeline, not under src/) applies the hooks "in a fixed
order (load, pre-tensor, to-tensor, post-tensor, per-batch,
per-batch-on-device)". -/
def pipelineHookOrder : List Hook :=
  [Hook.load_data, Hook.pre_tensor_transform, Hook.to_tensor_transform,
   Hook.post_tensor_transform, Hook.per_batch_transform,
   Hook.per_batch_transform_on_device]

/-- One sample's journey through the staged pipeline, with an execution
trace. Modelled from the spec: the `DataPipeline` driver (not under src/)
first obtains the dataset from `load_data`, draws a sample from it (drawing
a decoded clip out of the external dataset is the abstract `sampleOf`), and
then applies the per-sample and per-batch hooks in the fixed contract order.
The returned list records which hook ran at each step, in order. -/
def runStagedPipeline (p : VideoClassificationPreprocess α) (env : VideoEnv)
    (data : String) (d : AutoDatasetState)
    (sampleOf : EncodedVideoDataset → α) : α × List Hook :=
  let loaded := p.load_data env data d
  let x0 := sampleOf loaded.1
  let x1 := p.pre_tensor_transform x0
  let x2 := p.to_tensor_transform x1
  let x3 := p.post_tensor_transform x2
  let x4 := p.per_batch_transform x3
  let x5 := p.per_batch_transform_on_device x4
  (x5, pipelineHookOrder)

/-- Exceptions `from_paths` can raise: `ModuleNotFoundError` from the
pytorchvideo availability gate, `MisconfigurationException` from
pytorch_lightning. -/
inductive FlashError where
  | moduleNotFoundError (msg : String)
  | misconfigurationException (msg : String)
deriving DecidableEq, Repr

/-- Objects `from_paths` constructs after its validation checks, in the
order it constructs them; used to show that a raise happens before any of
them is built. -/
inductive ConstructionEvent where
  | madeClipSampler
  | madePreprocess
  | madeDataModule
deriving DecidableEq, Repr

/-- The data module produced by `DataModule.from_load_data_inputs`.
Modelled from the spec: the `DataModule` base (flash.data.data_module, not
under src/) "owns `Preprocess`, dataset construction
(`from_load_data_inputs`), and dataloader assembly (batch size, worker
count, samplers)"; it is a record of the inputs handed to the external
runtime, with no logic of its own. -/
structure DataModule (α : Type) where
  train_load_data_input : Option String
  val_load_data_input : Option String
  test_load_data_input : Option String
  predict_load_data_input : Option String
  batch_size : Nat
  num_workers : Option Nat
  preprocess : VideoClassificationPreprocess α
  use_iterable_auto_dataset : Bool

/-- `DataModule.from_load_data_inputs`. Modelled from the spec: dataset
construction and dataloader assembly are owned by the `DataModule` base and
delegated to the external trainer/tensor runtime, so the constructor is a
free record of its inputs. -/
def DataModule.from_load_data_inputs (α : Type)
    (train_load_data_input : Option String)
    (val_load_data_input : Option String)
    (test_load_data_input : Option String)
    (predict_load_data_input : Option String)
    (batch_size : Nat) (num_workers : Option Nat)
    (preprocess : VideoClassificationPreprocess α)
    (use_iterable_auto_dataset : Bool) : DataModule α :=
  { train_load_data_input := train_load_data_input
    val_load_data_input := val_load_data_input
    test_load_data_input := test_load_data_input
    predict_load_data_input := predict_load_data_input
    batch_size := batch_size
    num_workers := num_workers
    preprocess := preprocess
    use_iterable_auto_dataset := use_iterable_auto_dataset }

/-- `VideoClassificationData.instantiate_preprocess` (data.py lines 99-119):
constructs the preprocess class from the clip sampler, video sampler,
decode_audio flag, decoder, and the four per-split transform dictionaries.
The `preprocess_cls` override defaults to `cls.preprocess_cls =
VideoClassificationPreprocess`, the class embedded here. -/
def VideoClassificationData.instantiate_preprocess (α : Type)
    (clip_sampler : ClipSampler) (video_sampler : VideoSampler)
    (decode_audio : Bool) (decoder : String)
    (train_transform : Option (TransformDict α))
    (val_transform : Option (TransformDict α))
    (test_transform : Option (TransformDict α))
    (predict_transform : Option (TransformDict α)) :
    VideoClassificationPreprocess α :=
  VideoClassificationPreprocess.init α clip_sampler video_sampler decode_audio
    decoder train_transform val_transform test_transform predict_transform

/-- Python `if not clip_sampler_kwargs: clip_sampler_kwargs = {}` (data.py
lines 184-185): `None` and the empty dict are replaced by the empty dict. -/
def normalizeKwargs (k : Option (List (String × String))) :
    List (String × String) :=
  match k with
  | Option.none => []
  | some l => if l.isEmpty then [] else l

/-- The arguments of `VideoClassificationData.from_paths` (data.py lines
122-141), with their Python names. -/
structure FromPathsArgs (α : Type) where
  train_folder : Option String
  val_folder : Option String
  test_folder : Option String
  predict_folder : Option String
  clip_sampler : ClipSamplerArg
  clip_duration : ℚ
  clip_sampler_kwargs : Option (List (String × String))
  video_sampler : VideoSampler
  decode_audio : Bool
  decoder : String
  train_transform : Option (TransformDict α)
  val_transform : Option (TransformDict α)
  test_transform : Option (TransformDict α)
  predict_transform : Option (TransformDict α)
  batch_size : Nat
  num_workers : Option Nat

/-- `VideoClassificationData.from_paths` (data.py lines 122-216), with a
construction trace. The module-level `_PYTORCHVIDEO_AVAILABLE` flag is taken
as the boolean parameter `pytorchvideo_available`. In order: raise
`ModuleNotFoundError` when pytorchvideo is unavailable; default
`clip_sampler_kwargs`; raise `MisconfigurationException` when `clip_sampler`
is falsy; build the clip sampler via `make_clip_sampler`; build the
preprocess via `instantiate_preprocess`; hand the four folders, batch size,
worker count and preprocess to `from_load_data_inputs` with
`use_iterable_auto_dataset=True`. The second component records which objects
were constructed. -/
def VideoClassificationData.from_pathsT (pytorchvideo_available : Bool)
    (args : FromPathsArgs α) :
    Except FlashError (DataModule α) × List ConstructionEvent :=
  if pytorchvideo_available = false then
    (Except.error (FlashError.moduleNotFoundError
      "Please, run pip install pytorchvideo."), [])
  else
    let kw := normalizeKwargs args.clip_sampler_kwargs
    if args.clip_sampler.falsy then
      (Except.error (FlashError.misconfigurationException
        "clip_sampler should be provided as a string or pytorchvideo.data.clip_sampling.ClipSampler"),
       [])
    else
      let cs := make_clip_sampler args.clip_sampler args.clip_duration kw
      let preprocess := VideoClassificationData.instantiate_preprocess α cs
        args.video_sampler args.decode_audio args.decoder
        args.train_transform args.val_transform args.test_transform
        args.predict_transform
      let dm := DataModule.from_load_data_inputs α args.train_folder
        args.val_folder args.test_folder args.predict_folder args.batch_size
        args.num_workers preprocess true
      (Except.ok dm,
       [ConstructionEvent.madeClipSampler, ConstructionEvent.madePreprocess,
        ConstructionEvent.madeDataModule])

/-- `VideoClassificationData.from_paths`: the returned data module or raised
exception, without the trace. -/
def VideoClassificationData.from_paths (pytorchvideo_available : Bool)
    (args : FromPathsArgs α) : Except FlashError (DataModule α) :=
  (VideoClassificationData.from_pathsT pytorchvideo_available args).1

/-- The module-level assignments of flash/utils/imports.py: each line binds
one availability flag to `_module_available(pkg)` for its package. The
environment `available` says which packages are importable; it changes the
flag values but never the set of names the module defines. -/
def utilsImportsDefs (available : String → Bool) : List (String × Bool) :=
  [("_TABNET_AVAILABLE", available "pytorch_tabnet"),
   ("_KORNIA_AVAILABLE", available "kornia"),
   ("_COCO_AVAILABLE", available "pycocotools"),
   ("_TIMM_AVAILABLE", available "timm"),
   ("_TORCHVISION_AVAILABLE", available "torchvision"),
   ("_MATPLOTLIB_AVAILABLE", available "matplotlib"),
   ("_TRANSFORMERS_AVAILABLE", available "transformers")]

/-- The names flash/utils/imports.py defines. -/
def utilsImportsDefinedNames (available : String → Bool) : List String :=
  (utilsImportsDefs available).map Prod.fst

/-- A top-level statement of a Python module, as far as import-time
execution is concerned: a `from flash.utils.imports import names` statement,
a class definition, or anything else (imports of external packages and of
other flash modules, assumed importable). -/
inductive PyStmt where
  | importFromUtils (names : List String)
  | classDef (name : String)
  | other
deriving DecidableEq, Repr

/-- The top-level statements of flash/video/classification/data.py in source
order: external and intra-flash imports (lines 14-30), the
`from flash.utils.imports import _KORNIA_AVAILABLE, _PYTORCHVIDEO_AVAILABLE`
statement (line 31), the conditional import blocks and the type alias (lines
33-43), then the two class definitions. -/
def videoDataStmts : List PyStmt :=
  [PyStmt.other,
   PyStmt.importFromUtils ["_KORNIA_AVAILABLE", "_PYTORCHVIDEO_AVAILABLE"],
   PyStmt.other,
   PyStmt.classDef "VideoClassificationPreprocess",
   PyStmt.classDef "VideoClassificationData"]

/-- Import-time execution of a module body: statements run in order; a
`from flash.utils.imports import ...` statement raises `ImportError` at the
first requested name the utils module does not define, aborting execution.
Returns the class names defined before any failure, and the error if one
was raised. -/
def execModule (utilsDefines : List String) :
    List PyStmt → List String × Option String
  | [] => ([], Option.none)
  | PyStmt.importFromUtils names :: rest =>
    match names.find? (fun n => !(utilsDefines.contains n)) with
    | some missing =>
      ([], some ("ImportError: cannot import name " ++ missing
        ++ " from flash.utils.imports"))
    | Option.none => execModule utilsDefines rest
  | PyStmt.classDef n :: rest =>
    let r := execModule utilsDefines rest
    (n :: r.1, r.2)
  | PyStmt.other :: rest => execModule utilsDefines rest

/-- An nn.Module value: the default `nn.Conv2d(num_features, num_classes,
kernel_size=1)` head, or a module produced by a backbone constructor or
supplied by the caller. -/
inductive NNModule where
  | conv2d (in_channels : Nat) (out_channels : Nat) (kernel_size : Nat)
  | named (name : String)
deriving DecidableEq, Repr

/-- Tensors, with module application left free: applying a module to a
tensor yields a formally applied tensor, so two computations agree exactly
when they apply the same modules in the same order. -/
inductive Tensor where
  | input (id : Nat)
  | applied (m : NNModule) (t : Tensor)
deriving DecidableEq, Repr

/-- Calling an nn.Module on a tensor. -/
def NNModule.apply (m : NNModule) (t : Tensor) : Tensor :=
  Tensor.applied m t

/-- A registered backbone constructor: called with the `pretrained` flag and
the backbone kwargs, it returns the backbone module and its feature count,
as in the `self.backbones.get(backbone)(pretrained=pretrained,
**backbone_kwargs)` protocol. -/
abbrev BackboneCtor := Bool → List (String × Nat) → NNModule × Nat

/-- `FlashRegistry` (flash.core.registry, not under src/). Modelled from the
spec: "a name-to-constructor mapping for backbones, used only as
configuration lookup". -/
structure FlashRegistry where
  name : String
  entries : List (String × BackboneCtor)

/-- Registry lookup by name. -/
def FlashRegistry.get (r : FlashRegistry) (key : String) :
    Option BackboneCtor :=
  r.entries.lookup key

/-- The Python `backbone: Union[str, Tuple[nn.Module, int]]` argument. -/
inductive BackboneArg where
  | name (s : String)
  | moduleWithFeatures (m : NNModule) (num_features : Nat)

/-- The Python `head: Optional[Union[FunctionType, nn.Module]]` argument: a
head factory taking `(num_features, num_classes)`, or a ready module. -/
inductive HeadArg where
  | headFn (f : Nat → Nat → NNModule)
  | headModule (m : NNModule)

/-- Loss functions: the default `F.cross_entropy` or a user callable. -/
inductive LossFn where
  | cross_entropy
  | custom (name : String)
deriving DecidableEq, Repr

/-- Metrics: the default `Accuracy(subset_accuracy=multi_label)` or a user
value. -/
inductive MetricsV where
  | accuracy (subset_accuracy : Bool)
  | custom (name : String)
deriving DecidableEq, Repr

/-- Serializers: the default `Classes(multi_label=multi_label)` from
flash.core.classification or a user serializer. -/
inductive SerializerV where
  | classes (multi_label : Bool)
  | custom (name : String)
deriving DecidableEq, Repr

/-- Optimizer classes (`Type[torch.optim.Optimizer]`, default SGD). -/
inductive OptimizerCls where
  | sgd
  | custom (name : String)
deriving DecidableEq, Repr

/-- The constructed `SemanticSegmentation` task state. The
`ClassificationTask` base (flash.core.classification, not under src/) is
Modelled from the spec: the task "wires together backbones, loss functions,
optimizers, metrics" by storing what `__init__` hands to `super().__init__`
and what it assigns on `self`. -/
structure SemanticSegmentation where
  backbone : Option NNModule
  head : NNModule
  loss_fn : LossFn
  optimizer : OptimizerCls
  metrics : MetricsV
  learning_rate : ℚ
  serializer : SerializerV

/-- `SemanticSegmentation.__init__` (model.py lines 35-79). Defaults:
`metrics = Accuracy(subset_accuracy=multi_label)` when `None`,
`loss_fn = F.cross_entropy` when `None`, `serializer or
Classes(multi_label=multi_label)`. The backbone registry lookup is commented
out in the source behind a TODO; the source executes
`self.backbone, num_features = None, 1` unconditionally, never consulting
`backbones`. The head argument is called with `(num_features, num_classes)`
when it is a function, and `head or nn.Conv2d(num_features, num_classes,
kernel_size=1)` fills the default. -/
def SemanticSegmentation.init (backbones : FlashRegistry) (num_classes : Nat)
    (backbone : BackboneArg)
    (backbone_kwargs : Option (List (String × Nat)))
    (head : Option HeadArg) (pretrained : Bool) (loss_fn : Option LossFn)
    (optimizer : OptimizerCls) (metrics : Option MetricsV)
    (learning_rate : ℚ) (multi_label : Bool)
    (serializer : Option SerializerV) : SemanticSegmentation :=
  let metricsV := match metrics with
    | Option.none => MetricsV.accuracy multi_label
    | some m => m
  let lossV := match loss_fn with
    | Option.none => LossFn.cross_entropy
    | some f => f
  let serializerV := match serializer with
    | Option.none => SerializerV.classes multi_label
    | some s => s
  let _kwargs := match backbone_kwargs with
    | Option.none => []
    | some k => if k.isEmpty then [] else k
  let backboneVal : Option NNModule := Option.none
  let num_features : Nat := 1
  let headApplied : Option NNModule := match head with
    | some (HeadArg.headFn f) => some (f num_features num_classes)
    | some (HeadArg.headModule m) => some m
    | Option.none => Option.none
  let headVal := match headApplied with
    | Option.none => NNModule.conv2d num_features num_classes 1
    | some m => m
  { backbone := backboneVal
    head := headVal
    loss_fn := lossV
    optimizer := optimizer
    metrics := metricsV
    learning_rate := learning_rate
    serializer := serializerV }

/-- `SemanticSegmentation.forward` (model.py lines 81-83): `x =
self.backbone(x); return self.head(x)`. Calling a `None` backbone raises a
`TypeError` in Python, modelled as an error result. -/
def SemanticSegmentation.forward (self : SemanticSegmentation) (x : Tensor) :
    Except String Tensor :=
  match self.backbone with
  | some b => Except.ok (self.head.apply (b.apply x))
  | Option.none => Except.error "TypeError: NoneType object is not callable"

/-! Concrete values used by witnesses and counterexamples. -/

/-- A concrete filesystem with three labeled videos (labels 0, 1, 0) in
every folder. -/
def demoEnv : VideoEnv :=
  { videosIn := fun _ => [("a.mp4", 0), ("b.mp4", 1), ("c.mp4", 0)] }

/-- A concrete clip sampler. -/
def demoClipSampler : ClipSampler :=
  make_clip_sampler (ClipSamplerArg.str "random") 2 []

/-- A concrete preprocess object over `Nat` samples, fresh from
`__init__` (no active stage). -/
def demoPreprocess : VideoClassificationPreprocess Nat :=
  VideoClassificationPreprocess.init Nat demoClipSampler
    VideoSampler.randomSampler true "pyav" Option.none Option.none
    Option.none Option.none

/-- Concrete `from_paths` arguments with a truthy clip-sampler string. -/
def demoFromPathsArgs : FromPathsArgs Nat :=
  { train_folder := some "train"
    val_folder := Option.none
    test_folder := Option.none
    predict_folder := Option.none
    clip_sampler := ClipSamplerArg.str "random"
    clip_duration := 2
    clip_sampler_kwargs := Option.none
    video_sampler := VideoSampler.randomSampler
    decode_audio := true
    decoder := "pyav"
    train_transform := Option.none
    val_transform := Option.none
    test_transform := Option.none
    predict_transform := Option.none
    batch_size := 4
    num_workers := Option.none }

/-- The same arguments with a falsy (empty string) clip sampler. -/
def demoFalsyArgs : FromPathsArgs Nat :=
  { demoFromPathsArgs with clip_sampler := ClipSamplerArg.str "" }

/-- The data module `from_paths` builds from `demoFromPathsArgs`. -/
def demoDataModule : DataModule Nat :=
  DataModule.from_load_data_inputs Nat (some "train") Option.none Option.none
    Option.none 4 Option.none
    (VideoClassificationData.instantiate_preprocess Nat
      (make_clip_sampler (ClipSamplerArg.str "random") 2 [])
      VideoSampler.randomSampler true "pyav" Option.none Option.none
      Option.none Option.none)
    true

/-- A constructor registered for the name "resnet18": returns a backbone
module and 512 features. -/
def resnet18Ctor : BackboneCtor := fun _ _ => (NNModule.named "resnet18", 512)

/-- A `SEMANTIC_SEGMENTATION_BACKBONES` registry holding the "resnet18"
constructor. -/
def demoBackboneRegistry : FlashRegistry :=
  { name := "backbones", entries := [("resnet18", resnet18Ctor)] }

/-- A task constructed with the registered backbone name "resnet18" and all
optional arguments at their `None` defaults. -/
def demoSegTask : SemanticSegmentation :=
  SemanticSegmentation.init demoBackboneRegistry 10 (BackboneArg.name "resnet18")
    Option.none Option.none true Option.none OptimizerCls.sgd Option.none
    (1 / 1000) false Option.none

/-! Claim theorems. -/

/-- Claim C2: every sample processed through the preprocessing pipeline sees
the staged hooks in the fixed order load_data, pre_tensor_transform,
to_tensor_transform, post_tensor_transform, per_batch_transform,
per_batch_transform_on_device: the execution trace is exactly that order, a
hook later in the contract never runs before an earlier one has, and the
produced value is the nested application of the hooks in that order to the
sample drawn from the loaded dataset. -/
theorem C2_theorem (α : Type) (p : VideoClassificationPreprocess α)
    (env : VideoEnv) (data : String) (d : AutoDatasetState)
    (sampleOf : EncodedVideoDataset → α) :
    (runStagedPipeline p env data d sampleOf).2 = pipelineHookOrder ∧
    (∀ i j : Fin pipelineHookOrder.length,
      (pipelineHookOrder.get i).stageIndex < (pipelineHookOrder.get j).stageIndex →
      (i : Nat) < (j : Nat)) ∧
    (runStagedPipeline p env data d sampleOf).1 =
      p.per_batch_transform_on_device (p.per_batch_transform
        (p.post_tensor_transform (p.to_tensor_transform
          (p.pre_tensor_transform (sampleOf (p.load_data env data d).1))))) := by
  refine ⟨rfl, ?_, rfl⟩
  decide

/-- Claim C2, witness: a concrete run of the staged pipeline realises the
fixed hook order and the nested application. -/
theorem C2_witness :
    (runStagedPipeline demoPreprocess demoEnv "train"
      { num_classes := Option.none } (fun ds => ds.labeled_videos.length)).2 =
      pipelineHookOrder ∧
    (runStagedPipeline demoPreprocess demoEnv "train"
      { num_classes := Option.none } (fun ds => ds.labeled_videos.length)).1 =
      demoPreprocess.per_batch_transform_on_device
        (demoPreprocess.per_batch_transform
          (demoPreprocess.post_tensor_transform
            (demoPreprocess.to_tensor_transform
              (demoPreprocess.pre_tensor_transform
                ((demoPreprocess.load_data demoEnv "train"
                  { num_classes := Option.none }).1.labeled_videos.length))))) :=
  ⟨(C2_theorem Nat demoPreprocess demoEnv "train" { num_classes := Option.none }
      (fun ds => ds.labeled_videos.length)).1,
   (C2_theorem Nat demoPreprocess demoEnv "train" { num_classes := Option.none }
      (fun ds => ds.labeled_videos.length)).2.2⟩

/-- Claim C3: each per-sample and per-batch hook of
`VideoClassificationPreprocess` returns exactly `current_transform` applied
to its input, where `current_transform` resolves from the transform set
selected by the active split; the selection maps each of the four splits to
exactly its own transform dictionary, so the hook contract is uniform across
splits. -/
theorem C3_theorem (α : Type) (p : VideoClassificationPreprocess α)
    (sample : α) :
    p.pre_tensor_transform sample =
      p.current_transform "pre_tensor_transform" sample ∧
    p.to_tensor_transform sample =
      p.current_transform "to_tensor_transform" sample ∧
    p.post_tensor_transform sample =
      p.current_transform "post_tensor_transform" sample ∧
    p.per_batch_transform sample =
      p.current_transform "per_batch_transform" sample ∧
    p.per_batch_transform_on_device sample =
      p.current_transform "per_batch_transform_on_device" sample ∧
    (p.setStage RunningStage.train).currentTransformSet = p.train_transform ∧
    (p.setStage RunningStage.val).currentTransformSet = p.val_transform ∧
    (p.setStage RunningStage.test).currentTransformSet = p.test_transform ∧
    (p.setStage RunningStage.predict).currentTransformSet = p.predict_transform :=
  ⟨rfl, rfl, rfl, rfl, rfl, rfl, rfl, rfl, rfl⟩

/-- Claim C5: `VideoClassificationPreprocess.__init__` accepts exactly one
optional transform dictionary per split, and each split's stored and
selected transform set is the single dictionary passed for that split. -/
theorem C5_theorem (α : Type) (cs : ClipSampler) (vs : VideoSampler)
    (da : Bool) (dec : String) (t v te pr : Option (TransformDict α)) :
    (VideoClassificationPreprocess.init α cs vs da dec t v te pr).train_transform = t ∧
    (VideoClassificationPreprocess.init α cs vs da dec t v te pr).val_transform = v ∧
    (VideoClassificationPreprocess.init α cs vs da dec t v te pr).test_transform = te ∧
    (VideoClassificationPreprocess.init α cs vs da dec t v te pr).predict_transform = pr ∧
    ((VideoClassificationPreprocess.init α cs vs da dec t v te pr).setStage
      RunningStage.train).currentTransformSet = t ∧
    ((VideoClassificationPreprocess.init α cs vs da dec t v te pr).setStage
      RunningStage.val).currentTransformSet = v ∧
    ((VideoClassificationPreprocess.init α cs vs da dec t v te pr).setStage
      RunningStage.test).currentTransformSet = te ∧
    ((VideoClassificationPreprocess.init α cs vs da dec t v te pr).setStage
      RunningStage.predict).currentTransformSet = pr :=
  ⟨rfl, rfl, rfl, rfl, rfl, rfl, rfl, rfl⟩

/-- Claim C8: with `metrics=None`, `loss_fn=None`, `serializer=None`,
`SemanticSegmentation.__init__` wires in `Accuracy(subset_accuracy=
multi_label)` as metrics, cross-entropy as the loss function, and
`Classes(multi_label=multi_label)` as the serializer. -/
theorem C8_theorem (backbones : FlashRegistry) (num_classes : Nat)
    (backbone : BackboneArg) (backbone_kwargs : Option (List (String × Nat)))
    (head : Option HeadArg) (pretrained : Bool) (optimizer : OptimizerCls)
    (learning_rate : ℚ) (multi_label : Bool) :
    (SemanticSegmentation.init backbones num_classes backbone backbone_kwargs
      head pretrained Option.none optimizer Option.none learning_rate
      multi_label Option.none).metrics = MetricsV.accuracy multi_label ∧
    (SemanticSegmentation.init backbones num_classes backbone backbone_kwargs
      head pretrained Option.none optimizer Option.none learning_rate
      multi_label Option.none).loss_fn = LossFn.cross_entropy ∧
    (SemanticSegmentation.init backbones num_classes backbone backbone_kwargs
      head pretrained Option.none optimizer Option.none learning_rate
      multi_label Option.none).serializer = SerializerV.classes multi_label :=
  ⟨rfl, rfl, rfl⟩

/-- Claim C4: in every environment, flash/utils/imports.py defines exactly
the seven availability flags and not `_PYTORCHVIDEO_AVAILABLE`, so importing
flash/video/classification/data.py stops with an ImportError at its
`from flash.utils.imports import ...` statement, before any class of the
module is defined. -/
theorem C4_theorem (available : String → Bool) :
    utilsImportsDefinedNames available =
      ["_TABNET_AVAILABLE", "_KORNIA_AVAILABLE", "_COCO_AVAILABLE",
       "_TIMM_AVAILABLE", "_TORCHVISION_AVAILABLE", "_MATPLOTLIB_AVAILABLE",
       "_TRANSFORMERS_AVAILABLE"] ∧
    (utilsImportsDefinedNames available).contains "_PYTORCHVIDEO_AVAILABLE" =
      false ∧
    execModule (utilsImportsDefinedNames available) videoDataStmts =
      ([], some "ImportError: cannot import name _PYTORCHVIDEO_AVAILABLE from flash.utils.imports") :=
  ⟨rfl, rfl, rfl⟩

/-- Claim C1, counterexample: with "resnet18" registered in the backbone
registry and requested by name, the constructed task's backbone attribute is
`None`, not the module the registered constructor returns, and `forward`
fails instead of computing head(backbone(x)). -/
theorem C1_counterexample :
    demoBackboneRegistry.get "resnet18" = some resnet18Ctor ∧
    demoSegTask.backbone = Option.none ∧
    some (resnet18Ctor true []).1 ≠ demoSegTask.backbone ∧
    demoSegTask.forward (Tensor.input 0) =
      Except.error "TypeError: NoneType object is not callable" :=
  ⟨rfl, rfl, by decide, rfl⟩

/-- Claim C1, amended: for every call to `SemanticSegmentation.__init__`
with a backbone name registered in the registry, the registry is not
consulted: the source sets `self.backbone, num_features = None, 1` with the
lookup commented out behind a TODO, so the task's backbone attribute is
`None` and `forward(x)` raises a TypeError instead of returning
head(backbone(x)) for the requested backbone. -/
theorem C1_theorem (backbones : FlashRegistry) (num_classes : Nat)
    (name : String) (backbone_kwargs : Option (List (String × Nat)))
    (head : Option HeadArg) (pretrained : Bool) (loss_fn : Option LossFn)
    (optimizer : OptimizerCls) (metrics : Option MetricsV)
    (learning_rate : ℚ) (multi_label : Bool) (serializer : Option SerializerV)
    (h : (backbones.get name).isSome = true) :
    (SemanticSegmentation.init backbones num_classes (BackboneArg.name name)
      backbone_kwargs head pretrained loss_fn optimizer metrics learning_rate
      multi_label serializer).backbone = Option.none ∧
    ∀ x : Tensor,
      (SemanticSegmentation.init backbones num_classes (BackboneArg.name name)
        backbone_kwargs head pretrained loss_fn optimizer metrics
        learning_rate multi_label serializer).forward x =
      Except.error "TypeError: NoneType object is not callable" :=
  ⟨rfl, fun _ => rfl⟩

/-- Claim C1, witness: the amended statement instantiated at the concrete
registry holding "resnet18". -/
theorem C1_witness :
    (demoBackboneRegistry.get "resnet18").isSome = true ∧
    demoSegTask.backbone = Option.none ∧
    demoSegTask.forward (Tensor.input 0) =
      Except.error "TypeError: NoneType object is not callable" := by
  refine ⟨rfl, ?_, ?_⟩
  · exact (C1_theorem demoBackboneRegistry 10 "resnet18" Option.none
      Option.none true Option.none OptimizerCls.sgd Option.none (1 / 1000)
      false Option.none rfl).1
  · exact (C1_theorem demoBackboneRegistry 10 "resnet18" Option.none
      Option.none true Option.none OptimizerCls.sgd Option.none (1 / 1000)
      false Option.none rfl).2 (Tensor.input 0)

/-- Claim C6: every successful `from_paths` call builds its data module by
handing the four split folders, the batch size, the worker count, and the
instantiated preprocess to `from_load_data_inputs`; the data module is
exactly that delegation record. -/
theorem C6_theorem (α : Type) (args : FromPathsArgs α) (dm : DataModule α)
    (h : VideoClassificationData.from_paths true args = Except.ok dm) :
    dm = DataModule.from_load_data_inputs α args.train_folder args.val_folder
      args.test_folder args.predict_folder args.batch_size args.num_workers
      (VideoClassificationData.instantiate_preprocess α
        (make_clip_sampler args.clip_sampler args.clip_duration
          (normalizeKwargs args.clip_sampler_kwargs))
        args.video_sampler args.decode_audio args.decoder args.train_transform
        args.val_transform args.test_transform args.predict_transform)
      true := by
  unfold VideoClassificationData.from_paths
    VideoClassificationData.from_pathsT at h
  by_cases hf : args.clip_sampler.falsy = true
  · simp [hf] at h
  · simp [hf] at h
    exact h.symm

/-- Claim C6, witness: the concrete successful call yields exactly the
delegation record. -/
theorem C6_witness :
    VideoClassificationData.from_paths true demoFromPathsArgs =
      Except.ok demoDataModule ∧
    demoDataModule = DataModule.from_load_data_inputs Nat (some "train")
      Option.none Option.none Option.none 4 Option.none
      (VideoClassificationData.instantiate_preprocess Nat
        (make_clip_sampler (ClipSamplerArg.str "random") 2 [])
        VideoSampler.randomSampler true "pyav" Option.none Option.none
        Option.none Option.none) true :=
  ⟨rfl, C6_theorem Nat demoFromPathsArgs demoDataModule rfl⟩

/-- Claim C7: every successful `from_paths` call requests iterable auto
datasets (`use_iterable_auto_dataset=True`), and `load_data` returns the
external `EncodedVideoDataset` built from the folder via
`labeled_encoded_video_dataset` with the configured clip sampler, video
sampler, decode_audio flag and decoder. -/
theorem C7_theorem (α : Type) (args : FromPathsArgs α) :
    (∀ dm : DataModule α,
      VideoClassificationData.from_paths true args = Except.ok dm →
      dm.use_iterable_auto_dataset = true) ∧
    (∀ (p : VideoClassificationPreprocess α) (env : VideoEnv) (data : String)
      (d : AutoDatasetState),
      (p.load_data env data d).1 =
        labeled_encoded_video_dataset env data p.clip_sampler p.video_sampler
          p.decode_audio p.decoder) := by
  constructor
  · intro dm h
    unfold VideoClassificationData.from_paths
      VideoClassificationData.from_pathsT at h
    by_cases hf : args.clip_sampler.falsy = true
    · simp [hf] at h
    · simp [hf] at h
      rw [← h]
      rfl
  · intro p env data d
    cases ht : p.training <;>
      simp [VideoClassificationPreprocess.load_data, ht]

/-- Claim C7, witness: the concrete data module requests iterable auto
datasets and the concrete `load_data` result is the external dataset built
with the configured arguments. -/
theorem C7_witness :
    demoDataModule.use_iterable_auto_dataset = true ∧
    (demoPreprocess.load_data demoEnv "train" { num_classes := Option.none }).1 =
      labeled_encoded_video_dataset demoEnv "train" demoPreprocess.clip_sampler
        demoPreprocess.video_sampler demoPreprocess.decode_audio
        demoPreprocess.decoder :=
  ⟨(C7_theorem Nat demoFromPathsArgs).1 demoDataModule rfl,
   (C7_theorem Nat demoFromPathsArgs).2 demoPreprocess demoEnv "train"
     { num_classes := Option.none }⟩

/-- Claim C9: with pytorchvideo available, `from_paths` raises
`MisconfigurationException` exactly when `clip_sampler` is falsy, and then
before any clip sampler, preprocess, or data module is constructed (empty
construction trace); with pytorchvideo unavailable it raises
`ModuleNotFoundError` before any other check. -/
theorem C9_theorem (α : Type) (args : FromPathsArgs α) :
    ((∃ m, VideoClassificationData.from_paths true args =
        Except.error (FlashError.misconfigurationException m)) ↔
      args.clip_sampler.falsy = true) ∧
    (args.clip_sampler.falsy = true →
      VideoClassificationData.from_pathsT true args =
        (Except.error (FlashError.misconfigurationException
          "clip_sampler should be provided as a string or pytorchvideo.data.clip_sampling.ClipSampler"),
         [])) ∧
    VideoClassificationData.from_pathsT false args =
      (Except.error (FlashError.moduleNotFoundError
        "Please, run pip install pytorchvideo."), []) := by
  refine ⟨⟨?_, ?_⟩, ?_, rfl⟩
  · intro hm
    obtain ⟨m, hm⟩ := hm
    by_cases hf : args.clip_sampler.falsy = true
    · exact hf
    · exfalso
      unfold VideoClassificationData.from_paths
        VideoClassificationData.from_pathsT at hm
      simp [hf] at hm
  · intro hf
    refine ⟨"clip_sampler should be provided as a string or pytorchvideo.data.clip_sampling.ClipSampler", ?_⟩
    unfold VideoClassificationData.from_paths
      VideoClassificationData.from_pathsT
    simp [hf]
  · intro hf
    unfold VideoClassificationData.from_pathsT
    simp [hf]

/-- Claim C9, witness: the falsy empty-string clip sampler raises the
misconfiguration exception with an empty construction trace, and the
unavailable-pytorchvideo gate raises the module-not-found error with an
empty construction trace. -/
theorem C9_witness :
    (∃ m, VideoClassificationData.from_paths true demoFalsyArgs =
      Except.error (FlashError.misconfigurationException m)) ∧
    VideoClassificationData.from_pathsT true demoFalsyArgs =
      (Except.error (FlashError.misconfigurationException
        "clip_sampler should be provided as a string or pytorchvideo.data.clip_sampling.ClipSampler"),
       []) ∧
    VideoClassificationData.from_pathsT false demoFromPathsArgs =
      (Except.error (FlashError.moduleNotFoundError
        "Please, run pip install pytorchvideo."), []) :=
  ⟨(C9_theorem Nat demoFalsyArgs).1.mpr rfl,
   (C9_theorem Nat demoFalsyArgs).2.1 rfl,
   (C9_theorem Nat demoFromPathsArgs).2.2⟩

/-- Claim C10: `load_data` touches the adapter state only in training mode,
where it sets `num_classes` to the number of distinct labels among the
loaded videos; outside training mode the adapter state is returned
unchanged; and the returned `EncodedVideoDataset` is the same whatever the
active split. -/
theorem C10_theorem (α : Type) (p : VideoClassificationPreprocess α)
    (env : VideoEnv) (data : String) (d : AutoDatasetState) :
    (p.training = false → (p.load_data env data d).2 = d) ∧
    (p.training = true → (p.load_data env data d).2 =
      AutoDatasetState.mk
        (some (((p.load_data env data d).1.labeled_videos.map
          Prod.snd).dedup.length))) ∧
    ∀ s t : RunningStage,
      ((p.setStage s).load_data env data d).1 =
        ((p.setStage t).load_data env data d).1 := by
  refine ⟨?_, ?_, ?_⟩
  · intro ht
    simp [VideoClassificationPreprocess.load_data, ht]
  · intro ht
    simp [VideoClassificationPreprocess.load_data, ht]
  · intro s t
    cases s <;> cases t <;> rfl

/-- Claim C10, witness: with no active stage the adapter state comes back
unchanged; in training mode `num_classes` becomes 2, the number of distinct
labels among the three demo videos. -/
theorem C10_witness :
    (demoPreprocess.load_data demoEnv "videos" { num_classes := Option.none }).2 =
      { num_classes := Option.none } ∧
    ((demoPreprocess.setStage RunningStage.train).load_data demoEnv "videos"
      { num_classes := Option.none }).2 = { num_classes := some 2 } := by
  constructor
  · exact (C10_theorem Nat demoPreprocess demoEnv "videos"
      { num_classes := Option.none }).1 rfl
  · have h := (C10_theorem Nat (demoPreprocess.setStage RunningStage.train)
      demoEnv "videos" { num_classes := Option.none }).2.1 rfl
    exact h.trans (by decide)

end Flash
